import Mathlib

/-!
# Verification of the embedded-insurance-portal backend

Shallow embedding of `src/backend/main.py`, a FastAPI pass-through layer with
three endpoints (`POST /quote`, `POST /payment-method`, `POST /bind`) that
validate caller input, issue one outbound HTTP call to the insurance provider,
and reshape the provider response.

Modelling conventions:
* The single outbound HTTP call per request is modelled by passing its outcome
  (`CallOutcome`: timeout, transport error, or a response with a status code
  and body) as an explicit argument.
* A parsed JSON body from the provider is modelled by `ProviderFields`, a
  record of `Option`-typed fields covering exactly the keys the handlers read
  (`dict.get k` becomes field access on an `Option`). Numeric JSON values are
  modelled as rationals. A field being `none` models the key being absent.
* Wall-clock values (`date.today()`, `datetime.now().isoformat()`) are passed
  in as explicit arguments.
* Exceptions become `Except` / explicit error values; the error taxonomy at
  the HTTP boundary is `AppError`, and `renderError` models how the installed
  exception handlers (plus the framework default handler for request
  validation errors) turn an error into a status code and JSON body.
-/

namespace Portal

/-! ## Python truthiness helpers

Python `x or y` and `not x` on optional strings: `None` and the empty string
are falsy, every other string is truthy. -/

/-- `not v` in Python for `v : Optional[str]`: true when `v` is `None` or empty. -/
def pyFalsy : Option String → Bool
  | none => true
  | some s => s.isEmpty

/-- `v or d` in Python for `v : Optional[str]`, `d : str`. -/
def pyOr (v : Option String) (d : String) : String :=
  match v with
  | none => d
  | some s => if s.isEmpty then d else s

/-! ## Dates

Model of Python `datetime.date`: a year/month/day triple together with the
validity check the `date` constructor performs (`ValueError` on an invalid
combination; years range over 1..9999). -/

/-- A year/month/day triple, as carried by a Python `datetime.date`. -/
structure Date where
  year : Nat
  month : Nat
  day : Nat
deriving DecidableEq, Repr

/-- Gregorian leap-year test, as used by `datetime.date`. -/
def isLeapYear (y : Nat) : Bool :=
  (y % 4 == 0 && y % 100 != 0) || (y % 400 == 0)

/-- Number of days in a month of a given year. -/
def daysInMonth (y m : Nat) : Nat :=
  if m == 2 then (if isLeapYear y then 29 else 28)
  else if m == 4 || m == 6 || m == 9 || m == 11 then 30
  else 31

/-- The `date(year, month, day)` constructor succeeds exactly on these triples. -/
def validDate (y m d : Nat) : Bool :=
  1 ≤ y && y ≤ 9999 && 1 ≤ m && m ≤ 12 && 1 ≤ d && d ≤ daysInMonth y m

/-- Left-pad the decimal rendering of `n` with zeros to width `w`. -/
def padNat (w : Nat) (n : Nat) : String :=
  let s := toString n
  if s.length < w then String.mk (List.replicate (w - s.length) '0') ++ s else s

/-- `date.isoformat()`: the `YYYY-MM-DD` rendering of a date. -/
def Date.isoformat (d : Date) : String :=
  padNat 4 d.year ++ "-" ++ padNat 2 d.month ++ "-" ++ padNat 2 d.day

/-- Decimal value of a digit character, `none` on a non-digit. -/
def digitVal (c : Char) : Option Nat :=
  if c.isDigit then some (c.toNat - 48) else none

/-- `date.fromisoformat`: parse a `YYYY-MM-DD` string into a valid date,
failing (Python: `ValueError`) on any other shape or an invalid date.
This models the one format every supported Python version accepts and the
one `date.isoformat` produces. -/
def fromisoformat (s : String) : Option Date :=
  match s.data with
  | [y1, y2, y3, y4, c1, m1, m2, c2, d1, d2] =>
    if c1 = '-' ∧ c2 = '-' then
      match digitVal y1, digitVal y2, digitVal y3, digitVal y4,
            digitVal m1, digitVal m2, digitVal d1, digitVal d2 with
      | some a, some b, some c, some d, some e, some f, some g, some h =>
        let y := a * 1000 + b * 100 + c * 10 + d
        let m := e * 10 + f
        let dd := g * 10 + h
        if validDate y m dd then some ⟨y, m, dd⟩ else none
      | _, _, _, _, _, _, _, _ => none
    else none
  | _ => none

/-! ## Request models (Schema Layer, `main.py` lines 34-114) -/

/-- `Address` (all required strings; `zipCode` is the external alias). -/
structure Address where
  street : String
  city : String
  state : String
  zip_code : String
deriving DecidableEq, Repr

/-- `Vehicle`. -/
structure Vehicle where
  year : Int
  make : String
  model : String
  vin : Option String
deriving DecidableEq, Repr

/-- `QuoteRequest` (already past schema validation; the quote claims only
quantify over valid requests). -/
structure QuoteRequest where
  first_name : String
  last_name : String
  email : String
  phone : String
  address : Address
  vehicle : Vehicle
deriving DecidableEq, Repr

/-- The `Literal["card", "bank_account"]` payment type. -/
inductive PayType where
  | card
  | bank_account
deriving DecidableEq, Repr

/-- Validated `PaymentMethodRequest`. -/
structure PaymentMethodRequest where
  quote_id : String
  type : PayType
  card_number : Option String
  card_exp_month : Option Int
  card_exp_year : Option Int
  card_cvv : Option String
  bank_account_number : Option String
  bank_routing_number : Option String
deriving DecidableEq, Repr

/-- Raw (pre-validation) `PaymentMethodRequest` input.

For `card_number` the outer `Option` records whether the field was supplied
at all and the inner `Option` whether it was `null`: pydantic runs the
`validate_card_number` field validator only when the field is supplied
(a validator declared without `always=True` / `validate_default` is skipped
when the default is used — documented pydantic v1 and v2 behaviour), so
an absent field and an explicit `null` behave differently. The other
optional fields carry no validator, so supplied-`null` and absent are
indistinguishable and a single `Option` suffices. -/
structure RawPaymentMethodRequest where
  quote_id : String
  type : PayType
  card_number : Option (Option String)
  card_exp_month : Option Int
  card_exp_year : Option Int
  card_cvv : Option String
  bank_account_number : Option String
  bank_routing_number : Option String
deriving DecidableEq, Repr

/-- `BindRequest`. -/
structure BindRequest where
  quote_id : String
  payment_method_id : String
  effective_date : Option String
deriving DecidableEq, Repr

/-! ## Response models -/

/-- `QuoteResponse`. Premium modelled as a rational; coverage as an open
string-to-string mapping. -/
structure QuoteResponse where
  quote_id : String
  premium_amount : Rat
  coverage_details : List (String × String)
  valid_until : String
  message : String
deriving DecidableEq, Repr

/-- `PaymentMethodResponse`. -/
structure PaymentMethodResponse where
  payment_method_id : String
  type : PayType
  last_four : Option String
  message : String
deriving DecidableEq, Repr

/-- `BindResponse`. -/
structure BindResponse where
  policy_id : String
  policy_number : String
  effective_date : String
  expiration_date : String
  premium_amount : Rat
  status : String
  message : String
deriving DecidableEq, Repr

/-! ## Provider responses and outbound-call outcomes -/

/-- The JSON object keys that `main.py` reads from a provider response body,
each `Option`-typed (`none` = key absent). Numeric values are rationals,
`coverage` is an open string mapping. A present key is modelled with the type
the handler expects; a value of another JSON type would only add further
uncaught-exception paths (`float(...)`/attribute errors), which land in the
same handler branch as `malformed` bodies. -/
structure ProviderFields where
  message : Option String := none
  quote_id : Option String := none
  id : Option String := none
  monthly_premium : Option Rat := none
  premium_amount : Option Rat := none
  coverage : Option (List (String × String)) := none
  valid_until : Option String := none
  payment_method_id : Option String := none
  policy_id : Option String := none
  policy_number : Option String := none
  effective_date : Option String := none
  expiration_date : Option String := none
  status : Option String := none
deriving DecidableEq, Repr

/-- The body of a provider HTTP response as seen by `response.text` /
`response.json()`: empty text, non-empty text that is not valid JSON
(`response.json()` raises, carrying some exception text), or a parsed
JSON object. -/
inductive Body where
  | empty
  | malformed (excText : String)
  | obj (fields : ProviderFields)
deriving DecidableEq, Repr

/-- Outcome of the single outbound `httpx` POST: raised
`httpx.TimeoutException`, raised `httpx.RequestError` (carrying `str(e)`),
or a response with a status code and body. -/
inductive CallOutcome where
  | timeout
  | transportError (msg : String)
  | response (statusCode : Nat) (body : Body)
deriving DecidableEq, Repr

/-! ## Errors at the HTTP boundary -/

/-- The error kinds that can reach the application boundary:
`http s d` is a raised `fastapi.HTTPException(status_code := s, detail := d)`;
`requestValidation` is a pydantic `RequestValidationError` produced by schema
validation of the request body; `unexpected` is any other uncaught exception,
carrying `str(e)`. -/
inductive AppError where
  | http (statusCode : Nat) (detail : String)
  | requestValidation (msg : String)
  | unexpected (msg : String)
deriving DecidableEq, Repr

/-- A JSON error body: either the uniform envelope
`{error: ..., message: ..., status_code: ...}` built by the two registered
exception handlers, or the framework default rendering
`{detail: [...]}` of a request validation error. -/
inductive ErrorBody where
  | envelope (error : Bool) (message : String) (status_code : Nat)
  | validationDetail (detail : String)
deriving DecidableEq, Repr

/-- Whether an error body has the uniform envelope shape. -/
def ErrorBody.isEnvelope : ErrorBody → Bool
  | .envelope _ _ _ => true
  | .validationDetail _ => false

/-- How an error is rendered at the boundary (`main.py` lines 375-398 plus
framework dispatch). The app registers handlers for `HTTPException` and for
bare `Exception`; FastAPI itself installs a handler for
`RequestValidationError` that returns HTTP 422 with a `detail` list, and the
most specific registered handler wins, so request validation errors never
reach the two envelope-producing handlers. -/
def renderError : AppError → Nat × ErrorBody
  | .http s d => (s, .envelope true d s)
  | .requestValidation m => (422, .validationDetail m)
  | .unexpected _ =>
      (500, .envelope true "An unexpected error occurred. Please try again later." 500)

/-- Result of one HTTP request to the app: a 200 response with a typed body,
or an error status with an error body. -/
inductive HttpResult (α : Type) where
  | success (body : α)
  | failure (statusCode : Nat) (body : ErrorBody)
deriving DecidableEq, Repr

/-- The HTTP status code of a result (success responses are 200). -/
def HttpResult.status {α : Type} : HttpResult α → Nat
  | .success _ => 200
  | .failure s _ => s

/-! ## Root API client (`RootAPIClient`, `main.py` lines 121-267)

Each client method issues one POST and classifies failures. The common
pattern (`main.py` lines 165-183, 213-231, 249-267): status `>= 400` raises
`HTTPException` with the provider status and a message extracted from the
body (`error_detail = response.json() if response.text else {}` followed by
`error_detail.get("message", <generic>)`); `httpx.TimeoutException` raises
`HTTPException(504, ...)`; `httpx.RequestError` raises
`HTTPException(503, ...)`. A `response.json()` call on a non-empty body that
is not valid JSON raises `json.JSONDecodeError`, which is caught by none of
the `except` clauses in the client and therefore escapes as an unexpected
exception; the same holds for `response.json()` on an empty body in the
success branch. Only the generic fallback message differs per operation. -/

/-- Shared outcome classification of the three client methods,
parameterised by the generic per-operation strings. -/
def classifyCall (errPrefix genericMsg : String) :
    CallOutcome → Except AppError ProviderFields
  | .timeout =>
      .error (.http 504 "Request to Root API timed out. Please try again.")
  | .transportError e =>
      .error (.http 503 ("Unable to connect to Root API: " ++ e))
  | .response statusCode body =>
      if statusCode ≥ 400 then
        match body with
        | .empty =>
            .error (.http statusCode (errPrefix ++ genericMsg))
        | .malformed excText => .error (.unexpected excText)
        | .obj f =>
            .error (.http statusCode (errPrefix ++ Option.getD f.message genericMsg))
      else
        match body with
        | .obj f => .ok f
        | .empty => .error (.unexpected "Expecting value")
        | .malformed excText => .error (.unexpected excText)

/-- `RootAPIClient.create_quote`, given the outcome of its POST to
`{base_url}/quotes`. -/
def createQuoteCall : CallOutcome → Except AppError ProviderFields :=
  classifyCall "Root API error: " "Failed to create quote"

/-- `RootAPIClient.create_payment_method`, given the outcome of its POST to
`{base_url}/payment-methods`. -/
def createPaymentMethodCall : CallOutcome → Except AppError ProviderFields :=
  classifyCall "Payment method creation failed: " "Invalid payment information"

/-- `RootAPIClient.bind_policy`, given the outcome of its POST to
`{base_url}/policies`. -/
def bindPolicyCall : CallOutcome → Except AppError ProviderFields :=
  classifyCall "Policy binding failed: " "Unable to bind policy"

/-- The JSON payload `RootAPIClient.bind_policy` sends to
`{base_url}/policies` (`main.py` lines 237-241): quote id, payment method id,
and `bind_data.effective_date or date.today().isoformat()` — Python `or`,
so an empty-string effective date falls back to today exactly like `None`. -/
def bindPayload (bind_data : BindRequest) (today : Date) : String × String × String :=
  (bind_data.quote_id, bind_data.payment_method_id,
    pyOr bind_data.effective_date today.isoformat)

/-! ## Request validation (payment method) -/

/-- The `validate_card_number` validator body (`main.py` lines 84-88):
raise `ValueError` when the (already validated) `type` is `card` and the
value is falsy (`None` or empty string); otherwise return the value. -/
def validate_card_number (typeField : PayType) (v : Option String) :
    Except String (Option String) :=
  if typeField = PayType.card ∧ pyFalsy v = true then
    .error "Card number is required for card payments"
  else .ok v

/-- Schema validation of a raw `PaymentMethodRequest` body. The
`validate_card_number` field validator runs only when `card_number` is
supplied; when the field is absent the default `None` is used unvalidated
(the validator is declared without `always=True`, so pydantic skips it for
unset fields). A `ValueError` raised by the validator becomes a
`RequestValidationError`. -/
def validatePaymentMethod (raw : RawPaymentMethodRequest) :
    Except AppError PaymentMethodRequest :=
  let build : Option String → PaymentMethodRequest := fun cn =>
    ⟨raw.quote_id, raw.type, cn, raw.card_exp_month, raw.card_exp_year,
      raw.card_cvv, raw.bank_account_number, raw.bank_routing_number⟩
  match raw.card_number with
  | none => .ok (build none)
  | some v =>
      match validate_card_number raw.type v with
      | .error m => .error (.requestValidation m)
      | .ok v2 => .ok (build v2)

/-! ## Endpoint handlers (`main.py` lines 278-362)

Each handler wraps its body in `try/except`: a raised `HTTPException` is
re-raised unchanged, any other exception is converted to an
`HTTPException(500, <generic per-operation detail>)`; only the quote handler
appends `str(e)` to its generic detail. -/

/-- Python slice `s[-n:]`: the last `n` characters of `s` (the whole string
when `s` is shorter than `n`). -/
def pySliceLast (n : Nat) (s : String) : String :=
  String.mk (s.data.drop (s.data.length - n))

/-- `str(e)` of the exception an `AppError` models. -/
def AppError.excText : AppError → String
  | .http _ d => d
  | .requestValidation m => m
  | .unexpected m => m

/-- Ordered-candidate lookup `d.get(a, d.get(b))` used by the handlers for
the `quote_id`/`id`, `payment_method_id`/`id` and `policy_id`/`id` pairs. -/
def getFirst (a b : Option String) : Option String :=
  match a with
  | some x => some x
  | none => b

/-- Stand-in for the text of the pydantic `ValidationError` raised when a
response model is constructed with `None` for a required string field
(for example both `quote_id` and `id` absent from the provider body). The
exact text is framework-generated and not load-bearing for any claim. -/
def responseValidationText (model : String) : String :=
  "validation error for " ++ model

/-- Generic detail of the quote handler (`main.py` line 301), with `str(e)`
appended. -/
def quoteGenericDetail (excText : String) : String :=
  "An error occurred while generating your quote. Please try again. Error: "
    ++ excText

/-- Generic detail of the payment-method handler (`main.py` line 330). -/
def paymentGenericDetail : String :=
  "An error occurred while processing your payment method. Please verify your information and try again."

/-- Generic detail of the bind handler (`main.py` line 361). -/
def bindGenericDetail : String :=
  "An error occurred while binding your policy. Please try again or contact support."

/-- The `POST /quote` handler body (`main.py` lines 278-302), given the
outcome of the outbound call and `datetime.now().isoformat()`. -/
def create_quote (quote_request : QuoteRequest) (outcome : CallOutcome)
    (now : String) : Except AppError QuoteResponse :=
  match createQuoteCall outcome with
  | .error (.http s d) => .error (.http s d)
  | .error e => .error (.http 500 (quoteGenericDetail e.excText))
  | .ok f =>
      match getFirst f.quote_id f.id with
      | none =>
          .error (.http 500
            (quoteGenericDetail (responseValidationText "QuoteResponse")))
      | some qid =>
          .ok { quote_id := qid
                premium_amount :=
                  Option.getD f.monthly_premium (Option.getD f.premium_amount 0)
                coverage_details := Option.getD f.coverage []
                valid_until := pyOr f.valid_until now
                message := "Quote generated successfully" }

/-- The `POST /payment-method` handler body (`main.py` lines 305-331), on an
already validated request, given the outcome of the outbound call. -/
def create_payment_method (payment_request : PaymentMethodRequest)
    (outcome : CallOutcome) : Except AppError PaymentMethodResponse :=
  match createPaymentMethodCall outcome with
  | .error (.http s d) => .error (.http s d)
  | .error _ => .error (.http 500 paymentGenericDetail)
  | .ok f =>
      let last_four : Option String :=
        if payment_request.type = PayType.card then
          match payment_request.card_number with
          | some s => if s.isEmpty then none else some (pySliceLast 4 s)
          | none => none
        else none
      match getFirst f.payment_method_id f.id with
      | none => .error (.http 500 paymentGenericDetail)
      | some pmid =>
          .ok { payment_method_id := pmid
                type := payment_request.type
                last_four := last_four
                message := "Payment method created successfully" }

/-- The `POST /bind` handler body (`main.py` lines 334-362), given the
outcome of the outbound call and `date.today()`. The handler parses the
effective date from the provider body (falling back to today) and builds the
expiration date `date(effective.year + 1, effective.month, effective.day)`;
a parse failure or an invalid advanced date raises `ValueError`, caught by
the generic `except` and turned into a 500 with the bind detail. -/
def bind_policy (bind_request : BindRequest) (outcome : CallOutcome)
    (today : Date) : Except AppError BindResponse :=
  match bindPolicyCall outcome with
  | .error (.http s d) => .error (.http s d)
  | .error _ => .error (.http 500 bindGenericDetail)
  | .ok f =>
      match fromisoformat (Option.getD f.effective_date today.isoformat) with
      | none => .error (.http 500 bindGenericDetail)
      | some effective =>
          if validDate (effective.year + 1) effective.month effective.day then
            let expiration : Date :=
              ⟨effective.year + 1, effective.month, effective.day⟩
            match getFirst f.policy_id f.id with
            | none => .error (.http 500 bindGenericDetail)
            | some pid =>
                .ok { policy_id := pid
                      policy_number :=
                        Option.getD f.policy_number
                          ("POL-" ++ Option.getD f.id "UNKNOWN")
                      effective_date := Option.getD f.effective_date today.isoformat
                      expiration_date :=
                        Option.getD f.expiration_date expiration.isoformat
                      premium_amount :=
                        Option.getD f.monthly_premium (Option.getD f.premium_amount 0)
                      status := Option.getD f.status "active"
                      message := "Policy bound successfully" }
          else .error (.http 500 bindGenericDetail)

/-! ## Full request pipelines -/

/-- Render a handler result at the boundary. -/
def runRequest {α : Type} : Except AppError α → HttpResult α
  | .ok a => .success a
  | .error e => .failure (renderError e).1 (renderError e).2

/-- One `POST /quote` request end to end. -/
def runQuote (q : QuoteRequest) (outcome : CallOutcome) (now : String) :
    HttpResult QuoteResponse :=
  runRequest (create_quote q outcome now)

/-- One `POST /payment-method` request end to end: schema validation runs
first and, on failure, produces the response before any outbound call. -/
def runPaymentMethod (raw : RawPaymentMethodRequest) (outcome : CallOutcome) :
    HttpResult PaymentMethodResponse :=
  match validatePaymentMethod raw with
  | .error e => runRequest (Except.error e)
  | .ok req => runRequest (create_payment_method req outcome)

/-- Whether a `POST /payment-method` request reaches the outbound provider
call: the handler body runs exactly when schema validation succeeds. -/
def paymentReachesProvider (raw : RawPaymentMethodRequest) : Bool :=
  (validatePaymentMethod raw).isOk

/-- One `POST /bind` request end to end. -/
def runBind (b : BindRequest) (outcome : CallOutcome) (today : Date) :
    HttpResult BindResponse :=
  runRequest (bind_policy b outcome today)

/-! ## Auxiliary predicates used in statements -/

/-- `sub` occurs as a substring of `s`. -/
def containsStr (s sub : String) : Prop :=
  ∃ a b, s = a ++ sub ++ b

/-- The HTTP status a typed error carries at the boundary: the status of an
`HTTPException`, else 500. -/
def AppError.boundaryStatus : AppError → Nat
  | .http s _ => s
  | .requestValidation _ => 500
  | .unexpected _ => 500

/-- A concrete valid quote request used to instantiate endpoint statements. -/
def sampleQuoteRequest : QuoteRequest :=
  ⟨"Ann", "Lee", "ann@example.com", "555",
    ⟨"1 Main St", "Springfield", "IL", "62704"⟩,
    ⟨2020, "Make", "Model", none⟩⟩

/-! ## Helper lemmas -/

/-- A provider success response with a parsable object body is returned by
the client as is. -/
lemma classifyCall_ok (p g : String) (st : Nat) (f : ProviderFields)
    (hst : st < 400) :
    classifyCall p g (CallOutcome.response st (Body.obj f)) = Except.ok f := by
  simp only [classifyCall]
  rw [if_neg (by omega)]

/-- A provider error response whose body carries a `message` field raises an
`HTTPException` with the provider status and that message. -/
lemma classifyCall_err_message (p g : String) (st : Nat) (f : ProviderFields)
    (m : String) (hst : 400 ≤ st) (hm : f.message = some m) :
    classifyCall p g (CallOutcome.response st (Body.obj f)) =
      Except.error (AppError.http st (p ++ m)) := by
  simp only [classifyCall]
  rw [if_pos (by omega)]
  simp [hm]

/-- A provider error response with an object body lacking `message` raises an
`HTTPException` with the provider status and the generic message. -/
lemma classifyCall_err_generic (p g : String) (st : Nat) (f : ProviderFields)
    (hst : 400 ≤ st) (hm : f.message = none) :
    classifyCall p g (CallOutcome.response st (Body.obj f)) =
      Except.error (AppError.http st (p ++ g)) := by
  simp only [classifyCall]
  rw [if_pos (by omega)]
  simp [hm]

/-- A provider error response with an empty body raises an `HTTPException`
with the provider status and the generic message. -/
lemma classifyCall_err_empty (p g : String) (st : Nat) (hst : 400 ≤ st) :
    classifyCall p g (CallOutcome.response st Body.empty) =
      Except.error (AppError.http st (p ++ g)) := by
  simp only [classifyCall]
  rw [if_pos (by omega)]

/-- A non-empty provider body that is not valid JSON makes `response.json()`
raise, which no clause of the client catches, whatever the status code. -/
lemma classifyCall_malformed (p g : String) (st : Nat) (exc : String) :
    classifyCall p g (CallOutcome.response st (Body.malformed exc)) =
      Except.error (AppError.unexpected exc) := by
  simp only [classifyCall]
  split <;> rfl

/-- Every string contains itself after any literal prefix. -/
lemma containsStr_append_left (p m : String) : containsStr (p ++ m) m :=
  ⟨p, "", by simp⟩

/-- Shape of a successful `POST /quote` response: the provider call returned
a parsable object on a status below 400, an id was found, and every response
field is the mapped provider field. -/
lemma runQuote_success_eq (q : QuoteRequest) (f : ProviderFields)
    (now : String) (st : Nat) (r : QuoteResponse)
    (hst : st < 400)
    (hrun : runQuote q (CallOutcome.response st (Body.obj f)) now =
      HttpResult.success r) :
    ∃ qid, getFirst f.quote_id f.id = some qid ∧
      r = { quote_id := qid,
            premium_amount :=
              Option.getD f.monthly_premium (Option.getD f.premium_amount 0),
            coverage_details := Option.getD f.coverage [],
            valid_until := pyOr f.valid_until now,
            message := "Quote generated successfully" } := by
  unfold runQuote create_quote createQuoteCall at hrun
  rw [classifyCall_ok _ _ _ _ hst] at hrun
  simp only [] at hrun
  split at hrun
  · simp [runRequest] at hrun
  · next qid h =>
      refine ⟨qid, h, ?_⟩
      simp only [runRequest] at hrun
      cases hrun
      rfl

/-- Shape of a successful `POST /bind` response. -/
lemma runBind_success_eq (b : BindRequest) (f : ProviderFields)
    (today : Date) (st : Nat) (r : BindResponse)
    (hst : st < 400)
    (hrun : runBind b (CallOutcome.response st (Body.obj f)) today =
      HttpResult.success r) :
    ∃ effective pid,
      fromisoformat (Option.getD f.effective_date today.isoformat) =
        some effective ∧
      validDate (effective.year + 1) effective.month effective.day = true ∧
      getFirst f.policy_id f.id = some pid ∧
      r = { policy_id := pid,
            policy_number :=
              Option.getD f.policy_number ("POL-" ++ Option.getD f.id "UNKNOWN"),
            effective_date := Option.getD f.effective_date today.isoformat,
            expiration_date :=
              Option.getD f.expiration_date
                (Date.isoformat
                  ⟨effective.year + 1, effective.month, effective.day⟩),
            premium_amount :=
              Option.getD f.monthly_premium (Option.getD f.premium_amount 0),
            status := Option.getD f.status "active",
            message := "Policy bound successfully" } := by
  unfold runBind bind_policy bindPolicyCall at hrun
  rw [classifyCall_ok _ _ _ _ hst] at hrun
  simp only [] at hrun
  split at hrun
  · simp [runRequest] at hrun
  · next effective heq =>
      split at hrun
      · next hvd =>
          split at hrun
          · simp [runRequest] at hrun
          · next pid hpid =>
              refine ⟨effective, pid, heq, hvd, hpid, ?_⟩
              simp only [runRequest] at hrun
              cases hrun
              rfl
      · simp [runRequest] at hrun

/-! ## Claims -/

/-- C9: for every `BindRequest` whose `effective_date` is the empty string,
the bind payload sent to the provider carries the current date
(`date.today().isoformat()`) as effective date, exactly as if the field had
been absent; the empty string is never forwarded. -/
theorem bind_empty_effective_date_defaults_to_today (req : BindRequest)
    (today : Date) (h : req.effective_date = some "") :
    bindPayload req today =
      (req.quote_id, req.payment_method_id, today.isoformat) ∧
    bindPayload req today =
      bindPayload ⟨req.quote_id, req.payment_method_id, none⟩ today := by
  constructor <;> simp [bindPayload, pyOr, h] <;>
    exact fun hc => absurd hc (by decide)

/-- Witness for C9 at a concrete request and date. -/
theorem bind_empty_effective_date_defaults_to_today_witness :
    bindPayload ⟨"q1", "pm1", some ""⟩ ⟨2026, 10, 12⟩ =
      ("q1", "pm1", "2026-10-12") ∧
    bindPayload ⟨"q1", "pm1", some ""⟩ ⟨2026, 10, 12⟩ =
      bindPayload ⟨"q1", "pm1", none⟩ ⟨2026, 10, 12⟩ := by
  have h := bind_empty_effective_date_defaults_to_today
    ⟨"q1", "pm1", some ""⟩ ⟨2026, 10, 12⟩ rfl
  exact ⟨h.1.trans (by decide), h.2⟩

/-- C2: whenever the provider bind response carries an effective date and no
expiration date and `POST /bind` returns a success response, the returned
expiration date is the effective date advanced by exactly one calendar year:
same month, same day, year incremented by one. -/
theorem bind_expiration_one_year (req : BindRequest) (st : Nat)
    (f : ProviderFields) (today : Date) (s : String) (e : Date)
    (r : BindResponse)
    (hst : st < 400)
    (heff : f.effective_date = some s)
    (hparse : fromisoformat s = some e)
    (hexp : f.expiration_date = none)
    (hrun : runBind req (CallOutcome.response st (Body.obj f)) today =
      HttpResult.success r) :
    r.expiration_date = Date.isoformat ⟨e.year + 1, e.month, e.day⟩ := by
  unfold runBind bind_policy bindPolicyCall at hrun
  rw [classifyCall_ok _ _ _ _ hst] at hrun
  simp only [heff, hexp, Option.getD_some, hparse] at hrun
  split at hrun
  · split at hrun
    · simp [runRequest] at hrun
    · simp only [runRequest] at hrun
      cases hrun
      rfl
  · simp [runRequest] at hrun

/-- Witness for C2: provider effective date 2024-03-15 and no expiration date
yield expiration date 2025-03-15. -/
theorem bind_expiration_one_year_witness :
    runBind ⟨"q", "pm", none⟩
      (CallOutcome.response 200
        (Body.obj { effective_date := some "2024-03-15", policy_id := some "P1" }))
      ⟨2024, 1, 1⟩ =
      HttpResult.success
        { policy_id := "P1", policy_number := "POL-UNKNOWN",
          effective_date := "2024-03-15", expiration_date := "2025-03-15",
          premium_amount := 0, status := "active",
          message := "Policy bound successfully" } ∧
    ({ policy_id := "P1", policy_number := "POL-UNKNOWN",
       effective_date := "2024-03-15", expiration_date := "2025-03-15",
       premium_amount := 0, status := "active",
       message := "Policy bound successfully" } : BindResponse).expiration_date =
      "2025-03-15" := by
  refine ⟨by decide, ?_⟩
  have h := bind_expiration_one_year ⟨"q", "pm", none⟩ 200
    { effective_date := some "2024-03-15", policy_id := some "P1" }
    ⟨2024, 1, 1⟩ "2024-03-15" ⟨2024, 3, 15⟩
    { policy_id := "P1", policy_number := "POL-UNKNOWN",
      effective_date := "2024-03-15", expiration_date := "2025-03-15",
      premium_amount := 0, status := "active",
      message := "Policy bound successfully" }
    (by decide) rfl (by decide) rfl (by decide)
  exact h.trans (by decide)

/-- C10: a successful provider bind response whose effective date string does
not parse as an ISO date, or parses to a date that cannot be advanced one
year to the same month and day, makes `POST /bind` return a 500 error with
the fixed bind-specific message, not a 200 response or an unhandled crash. -/
theorem bind_bad_effective_date_gives_500 (req : BindRequest) (st : Nat)
    (f : ProviderFields) (today : Date) (s : String)
    (hst : st < 400)
    (heff : f.effective_date = some s)
    (hbad : fromisoformat s = none ∨
      ∃ e, fromisoformat s = some e ∧
        validDate (e.year + 1) e.month e.day = false) :
    runBind req (CallOutcome.response st (Body.obj f)) today =
      HttpResult.failure 500 (ErrorBody.envelope true bindGenericDetail 500) := by
  unfold runBind bind_policy bindPolicyCall
  rw [classifyCall_ok _ _ _ _ hst]
  simp only [heff, Option.getD_some]
  rcases hbad with hnone | ⟨e, hsome, hinvalid⟩
  · rw [hnone]
    rfl
  · rw [hsome]
    simp only [hinvalid]
    rfl

/-- Witness for C10 at a concrete unparsable effective date. -/
theorem bind_bad_effective_date_gives_500_witness :
    runBind ⟨"q", "pm", none⟩
      (CallOutcome.response 200
        (Body.obj { effective_date := some "garbage", policy_id := some "P1" }))
      ⟨2024, 1, 1⟩ =
      HttpResult.failure 500 (ErrorBody.envelope true bindGenericDetail 500) :=
  bind_bad_effective_date_gives_500 ⟨"q", "pm", none⟩ 200
    { effective_date := some "garbage", policy_id := some "P1" }
    ⟨2024, 1, 1⟩ "garbage" (by decide) rfl (Or.inl (by decide))

/-- C6: on each of the three endpoints, a timeout of the single outbound
provider call yields status 504 with the uniform envelope and a
retry-suggesting message, and a transport/connection error yields status 503;
the result is a function of the one call outcome, so no retry occurs. -/
theorem outbound_timeout_504_transport_503 (q : QuoteRequest)
    (raw : RawPaymentMethodRequest) (b : BindRequest) (now : String)
    (today : Date) (e : String)
    (hraw : (validatePaymentMethod raw).isOk = true) :
    (runQuote q CallOutcome.timeout now =
      HttpResult.failure 504 (ErrorBody.envelope true
        "Request to Root API timed out. Please try again." 504)) ∧
    (runPaymentMethod raw CallOutcome.timeout =
      HttpResult.failure 504 (ErrorBody.envelope true
        "Request to Root API timed out. Please try again." 504)) ∧
    (runBind b CallOutcome.timeout today =
      HttpResult.failure 504 (ErrorBody.envelope true
        "Request to Root API timed out. Please try again." 504)) ∧
    (runQuote q (CallOutcome.transportError e) now =
      HttpResult.failure 503 (ErrorBody.envelope true
        ("Unable to connect to Root API: " ++ e) 503)) ∧
    (runPaymentMethod raw (CallOutcome.transportError e) =
      HttpResult.failure 503 (ErrorBody.envelope true
        ("Unable to connect to Root API: " ++ e) 503)) ∧
    (runBind b (CallOutcome.transportError e) today =
      HttpResult.failure 503 (ErrorBody.envelope true
        ("Unable to connect to Root API: " ++ e) 503)) ∧
    containsStr "Request to Root API timed out. Please try again." "try again" := by
  obtain ⟨req, hv⟩ : ∃ req, validatePaymentMethod raw = Except.ok req := by
    cases hv2 : validatePaymentMethod raw with
    | error err => rw [hv2] at hraw; simp [Except.isOk, Except.toBool] at hraw
    | ok req => exact ⟨req, rfl⟩
  refine ⟨rfl, ?_, rfl, rfl, ?_, rfl,
    ⟨"Request to Root API timed out. Please ", ".", by decide⟩⟩
  · unfold runPaymentMethod
    rw [hv]
    rfl
  · unfold runPaymentMethod
    rw [hv]
    rfl

/-- Witness for C6: a concrete valid bank-account request times out with 504
and the retry-suggesting envelope. -/
theorem outbound_timeout_504_transport_503_witness :
    runPaymentMethod
      ⟨"q1", PayType.bank_account, none, none, none, none, some "123", some "456"⟩
      CallOutcome.timeout =
      HttpResult.failure 504 (ErrorBody.envelope true
        "Request to Root API timed out. Please try again." 504) :=
  (outbound_timeout_504_transport_503
    ⟨"Ann", "Lee", "ann@example.com", "555",
      ⟨"1 Main St", "Springfield", "IL", "62704"⟩,
      ⟨2020, "Make", "Model", none⟩⟩
    ⟨"q1", PayType.bank_account, none, none, none, none, some "123", some "456"⟩
    ⟨"q1", "pm1", none⟩ "NOW" ⟨2026, 10, 12⟩ "refused" (by decide)).2.1

/-- C7: a card payment whose supplied card number has at least four
characters and which succeeds at the provider gets a `last_four` equal to
the last four characters of the supplied card number; for a bank-account
payment `last_four` is absent. -/
theorem payment_last_four (raw : RawPaymentMethodRequest) (f : ProviderFields)
    (st : Nat) (s : String)
    (hst : st < 400) :
    (raw.type = PayType.card → raw.card_number = some (some s) →
      4 ≤ s.length →
      ∀ r, runPaymentMethod raw (CallOutcome.response st (Body.obj f)) =
        HttpResult.success r →
        ∃ pre last4, s = pre ++ last4 ∧ last4.length = 4 ∧
          r.last_four = some last4) ∧
    (raw.type = PayType.bank_account →
      ∀ r, runPaymentMethod raw (CallOutcome.response st (Body.obj f)) =
        HttpResult.success r →
        r.last_four = none) := by
  constructor
  · intro htype hcn hlen r hrun
    have hne : s ≠ "" := by
      intro h0
      rw [h0] at hlen
      exact absurd hlen (by decide)
    have hie : s.isEmpty = false := by
      cases hb : s.isEmpty
      · rfl
      · exact absurd ((String.isEmpty_iff s).mp hb) hne
    have hv : validatePaymentMethod raw = Except.ok
        ⟨raw.quote_id, raw.type, some s, raw.card_exp_month, raw.card_exp_year,
          raw.card_cvv, raw.bank_account_number, raw.bank_routing_number⟩ := by
      unfold validatePaymentMethod validate_card_number
      rw [hcn]
      simp [pyFalsy, hie]
    unfold runPaymentMethod at hrun
    rw [hv] at hrun
    unfold create_payment_method createPaymentMethodCall at hrun
    rw [classifyCall_ok _ _ _ _ hst] at hrun
    simp only [htype, reduceIte] at hrun
    refine ⟨String.mk (s.data.take (s.data.length - 4)), pySliceLast 4 s,
      ?_, ?_, ?_⟩
    · show s = String.mk (s.data.take (s.data.length - 4) ++
        s.data.drop (s.data.length - 4))
      rw [List.take_append_drop]
    · show (s.data.drop (s.data.length - 4)).length = 4
      rw [List.length_drop]
      have : 4 ≤ s.data.length := hlen
      omega
    · simp only [hie, Bool.false_eq_true, reduceIte] at hrun
      split at hrun
      · simp [runRequest] at hrun
      · simp only [runRequest] at hrun
        cases hrun
        rfl
  · intro htype r hrun
    obtain ⟨cn, hv⟩ : ∃ cn, validatePaymentMethod raw = Except.ok
        ⟨raw.quote_id, raw.type, cn, raw.card_exp_month, raw.card_exp_year,
          raw.card_cvv, raw.bank_account_number, raw.bank_routing_number⟩ := by
      unfold validatePaymentMethod validate_card_number
      cases hcn : raw.card_number with
      | none => exact ⟨none, rfl⟩
      | some v =>
          refine ⟨v, ?_⟩
          rw [htype]
          simp
    unfold runPaymentMethod at hrun
    rw [hv] at hrun
    unfold create_payment_method createPaymentMethodCall at hrun
    rw [classifyCall_ok _ _ _ _ hst] at hrun
    simp only [htype, reduceIte] at hrun
    split at hrun
    · simp [runRequest] at hrun
    · simp only [runRequest] at hrun
      cases hrun
      rfl

/-- Witness for C7: card number of six characters gives its last four;
a bank-account request has no `last_four`. -/
theorem payment_last_four_witness :
    (∃ pre last4, "123456" = pre ++ last4 ∧ last4.length = 4 ∧
      ({ payment_method_id := "PM1", type := PayType.card,
         last_four := some "3456",
         message := "Payment method created successfully" } :
           PaymentMethodResponse).last_four = some last4) ∧
    ({ payment_method_id := "PM1", type := PayType.bank_account,
       last_four := none,
       message := "Payment method created successfully" } :
         PaymentMethodResponse).last_four = none := by
  constructor
  · exact (payment_last_four
      ⟨"q1", PayType.card, some (some "123456"), none, none, none, none, none⟩
      { payment_method_id := some "PM1" } 200 "123456" (by decide)).1
      rfl rfl (by decide)
      { payment_method_id := "PM1", type := PayType.card,
        last_four := some "3456",
        message := "Payment method created successfully" }
      (by decide)
  · exact (payment_last_four
      ⟨"q1", PayType.bank_account, none, none, none, none, some "1", some "2"⟩
      { payment_method_id := some "PM1" } 200 "" (by decide)).2
      rfl
      { payment_method_id := "PM1", type := PayType.bank_account,
        last_four := none,
        message := "Payment method created successfully" }
      (by decide)

/-- C8: on a successful provider response the returned premium is the
provider `monthly_premium` when present, else `premium_amount` when present,
else 0, for both the quote and the bind endpoint; in particular a provider
response missing both fields yields premium 0. -/
theorem premium_fallback_chain (q : QuoteRequest) (b : BindRequest)
    (f : ProviderFields) (now : String) (today : Date) (st : Nat) (x y : Rat)
    (hst : st < 400) :
    ((f.monthly_premium = some x →
      ∀ r, runQuote q (CallOutcome.response st (Body.obj f)) now =
        HttpResult.success r → r.premium_amount = x) ∧
     (f.monthly_premium = none → f.premium_amount = some y →
      ∀ r, runQuote q (CallOutcome.response st (Body.obj f)) now =
        HttpResult.success r → r.premium_amount = y) ∧
     (f.monthly_premium = none → f.premium_amount = none →
      ∀ r, runQuote q (CallOutcome.response st (Body.obj f)) now =
        HttpResult.success r → r.premium_amount = 0)) ∧
    ((f.monthly_premium = some x →
      ∀ r, runBind b (CallOutcome.response st (Body.obj f)) today =
        HttpResult.success r → r.premium_amount = x) ∧
     (f.monthly_premium = none → f.premium_amount = some y →
      ∀ r, runBind b (CallOutcome.response st (Body.obj f)) today =
        HttpResult.success r → r.premium_amount = y) ∧
     (f.monthly_premium = none → f.premium_amount = none →
      ∀ r, runBind b (CallOutcome.response st (Body.obj f)) today =
        HttpResult.success r → r.premium_amount = 0)) := by
  have hq : ∀ r, runQuote q (CallOutcome.response st (Body.obj f)) now =
      HttpResult.success r →
      r.premium_amount = Option.getD f.monthly_premium
        (Option.getD f.premium_amount 0) := by
    intro r hrun
    obtain ⟨qid, _, rfl⟩ := runQuote_success_eq q f now st r hst hrun
    rfl
  have hb : ∀ r, runBind b (CallOutcome.response st (Body.obj f)) today =
      HttpResult.success r →
      r.premium_amount = Option.getD f.monthly_premium
        (Option.getD f.premium_amount 0) := by
    intro r hrun
    obtain ⟨effective, pid, _, _, _, rfl⟩ :=
      runBind_success_eq b f today st r hst hrun
    rfl
  refine ⟨⟨?_, ?_, ?_⟩, ?_, ?_, ?_⟩ <;>
    intro h1 <;>
    first
      | (intro h2 r hrun
         rw [hq r hrun, h1, h2]
         rfl)
      | (intro r hrun
         rw [hq r hrun, h1]
         rfl)
      | (intro h2 r hrun
         rw [hb r hrun, h1, h2]
         rfl)
      | (intro r hrun
         rw [hb r hrun, h1]
         rfl)

/-- C1 counterexample: a card request whose card number is entirely absent
passes schema validation (the field validator is skipped for unset fields)
and reaches the outbound provider call, so validation does not fail there. -/
theorem absent_card_number_passes_validation :
    validatePaymentMethod
      ⟨"q1", PayType.card, none, none, none, none, none, none⟩ =
      Except.ok ⟨"q1", PayType.card, none, none, none, none, none, none⟩ ∧
    paymentReachesProvider
      ⟨"q1", PayType.card, none, none, none, none, none, none⟩ = true :=
  ⟨rfl, rfl⟩

/-- C1 (amended): a card request whose card number is supplied but null or
empty fails schema validation with the card-number validation error, rendered
as a 422 validation response independent of any provider outcome, and the
outbound call is not reached; an absent card number is not rejected; no
required-field rule applies to bank-account requests. -/
theorem card_empty_card_number_rejected (raw : RawPaymentMethodRequest)
    (htype : raw.type = PayType.card)
    (hcn : raw.card_number = some none ∨ raw.card_number = some (some "")) :
    (∀ outcome, runPaymentMethod raw outcome =
      HttpResult.failure 422
        (ErrorBody.validationDetail "Card number is required for card payments")) ∧
    paymentReachesProvider raw = false ∧
    ∀ raw2 : RawPaymentMethodRequest, raw2.type = PayType.bank_account →
      (validatePaymentMethod raw2).isOk = true := by
  have hv : validatePaymentMethod raw = Except.error
      (AppError.requestValidation "Card number is required for card payments") := by
    unfold validatePaymentMethod validate_card_number
    rcases hcn with h | h
    · rw [h]
      simp [htype, pyFalsy]
    · rw [h]
      simp only [htype, pyFalsy]
      rfl
  refine ⟨?_, ?_, ?_⟩
  · intro outcome
    unfold runPaymentMethod
    rw [hv]
    rfl
  · unfold paymentReachesProvider
    rw [hv]
    rfl
  · intro raw2 ht2
    unfold validatePaymentMethod validate_card_number
    cases hcase : raw2.card_number with
    | none => rfl
    | some v => simp [ht2, Except.isOk, Except.toBool]

/-- Witness for the amended C1 at concrete requests. -/
theorem card_empty_card_number_rejected_witness :
    runPaymentMethod
      ⟨"q2", PayType.card, some none, none, none, none, none, none⟩
      CallOutcome.timeout =
      HttpResult.failure 422
        (ErrorBody.validationDetail "Card number is required for card payments") ∧
    paymentReachesProvider
      ⟨"q2", PayType.card, some none, none, none, none, none, none⟩ = false ∧
    (validatePaymentMethod
      ⟨"b1", PayType.bank_account, none, none, none, none, none, none⟩).isOk =
      true := by
  obtain ⟨h1, h2, h3⟩ := card_empty_card_number_rejected
    ⟨"q2", PayType.card, some none, none, none, none, none, none⟩ rfl (Or.inl rfl)
  exact ⟨h1 CallOutcome.timeout, h2, h3 _ rfl⟩

/-- C5 counterexample: a request validation error reaches the boundary as the
framework 422 detail body, which does not have the uniform envelope shape. -/
theorem validation_error_breaks_envelope :
    runPaymentMethod
      ⟨"q3", PayType.card, some (some ""), none, none, none, none, none⟩
      CallOutcome.timeout =
      HttpResult.failure 422
        (ErrorBody.validationDetail "Card number is required for card payments") ∧
    (ErrorBody.validationDetail
      "Card number is required for card payments").isEnvelope = false := by
  decide

/-- C5 (amended): every error rendered by the two registered exception
handlers — raised `HTTPException` (validation excluded) and uncaught
unexpected exceptions — produces exactly the envelope
`{error: true, message, status_code}` with the HTTP status and the
`status_code` field taken from the typed error when available and 500
otherwise; request validation errors are instead rendered by the framework
default handler as 422 with a detail body. -/
theorem error_envelope_shape (e : AppError)
    (h : ∀ m, e ≠ AppError.requestValidation m) :
    (∃ msg, renderError e =
      (e.boundaryStatus, ErrorBody.envelope true msg e.boundaryStatus)) ∧
    ∀ m, renderError (AppError.requestValidation m) =
      (422, ErrorBody.validationDetail m) := by
  refine ⟨?_, fun m => rfl⟩
  cases e with
  | http s d => exact ⟨d, rfl⟩
  | requestValidation m => exact absurd rfl (h m)
  | unexpected m =>
      exact ⟨"An unexpected error occurred. Please try again later.", rfl⟩

/-- Witness for the amended C5 at a concrete timeout error. -/
theorem error_envelope_shape_witness :
    (∃ msg, renderError
        (AppError.http 504 "Request to Root API timed out. Please try again.") =
      (504, ErrorBody.envelope true msg 504)) ∧
    ∀ m, renderError (AppError.requestValidation m) =
      (422, ErrorBody.validationDetail m) :=
  error_envelope_shape
    (AppError.http 504 "Request to Root API timed out. Please try again.")
    (fun m hm => AppError.noConfusion hm)

/-- C3 counterexample: a provider 422 whose non-empty body is not valid JSON
is not passed through with status 422: `response.json()` raises inside the
client, no clause catches it, and the request ends as a 500. -/
theorem malformed_provider_error_body_gives_500 :
    runQuote sampleQuoteRequest
      (CallOutcome.response 422 (Body.malformed "Expecting value")) "NOW" =
      HttpResult.failure 500
        (ErrorBody.envelope true (quoteGenericDetail "Expecting value") 500) ∧
    (runQuote sampleQuoteRequest
      (CallOutcome.response 422 (Body.malformed "Expecting value")) "NOW").status ≠
      422 := by
  decide

/-- C3 (amended): for a provider response with status at least 400, the
client raises a typed provider error carrying that exact status and the
message from the body `message` field, falling back to the generic
per-operation message when the body is empty or parses without a `message`
field; a non-empty unparsable body instead escapes as an unexpected error
and yields a 500; in particular a 422 body with message "invalid VIN" gives
status 422 and a message containing "invalid VIN". -/
theorem provider_error_passthrough (q : QuoteRequest) (now : String)
    (st : Nat) (f : ProviderFields) (m exc : String)
    (hst : 400 ≤ st) :
    (f.message = some m →
      runQuote q (CallOutcome.response st (Body.obj f)) now =
        HttpResult.failure st
          (ErrorBody.envelope true ("Root API error: " ++ m) st) ∧
      containsStr ("Root API error: " ++ m) m) ∧
    (f.message = none →
      runQuote q (CallOutcome.response st (Body.obj f)) now =
        HttpResult.failure st (ErrorBody.envelope true
          ("Root API error: " ++ "Failed to create quote") st)) ∧
    (runQuote q (CallOutcome.response st Body.empty) now =
      HttpResult.failure st (ErrorBody.envelope true
        ("Root API error: " ++ "Failed to create quote") st)) ∧
    (runQuote q (CallOutcome.response st (Body.malformed exc)) now =
      HttpResult.failure 500
        (ErrorBody.envelope true (quoteGenericDetail exc) 500)) := by
  refine ⟨?_, ?_, ?_, ?_⟩
  · intro hm
    refine ⟨?_, containsStr_append_left _ _⟩
    unfold runQuote create_quote createQuoteCall
    rw [classifyCall_err_message _ _ _ _ _ hst hm]
    rfl
  · intro hm
    unfold runQuote create_quote createQuoteCall
    rw [classifyCall_err_generic _ _ _ _ hst hm]
    rfl
  · unfold runQuote create_quote createQuoteCall
    rw [classifyCall_err_empty _ _ _ hst]
    rfl
  · unfold runQuote create_quote createQuoteCall
    rw [classifyCall_malformed]
    rfl

/-- Witness for the amended C3: the provider 422 with message "invalid VIN"
is returned as a 422 whose message contains "invalid VIN". -/
theorem provider_error_passthrough_witness :
    runQuote sampleQuoteRequest
      (CallOutcome.response 422 (Body.obj { message := some "invalid VIN" }))
      "NOW" =
      HttpResult.failure 422
        (ErrorBody.envelope true ("Root API error: " ++ "invalid VIN") 422) ∧
    containsStr ("Root API error: " ++ "invalid VIN") "invalid VIN" :=
  (provider_error_passthrough sampleQuoteRequest "NOW" 422
    { message := some "invalid VIN" } "invalid VIN" "x" (by decide)).1 rfl

/-- C4 counterexample: with a provider success body carrying an empty
`quote_id` and a negative `monthly_premium`, `POST /quote` returns 200 with
a negative premium and an empty quote id; a timed-out provider call does not
produce a 200 at all. -/
theorem quote_success_not_guaranteed :
    runQuote sampleQuoteRequest
      (CallOutcome.response 200
        (Body.obj { quote_id := some "", monthly_premium := some (-1) }))
      "NOW" =
      HttpResult.success
        { quote_id := "", premium_amount := -1, coverage_details := [],
          valid_until := "NOW", message := "Quote generated successfully" } ∧
    ¬ (0 : Rat) ≤ -1 ∧
    ("" : String).length = 0 ∧
    (runQuote sampleQuoteRequest CallOutcome.timeout "NOW").status = 504 := by
  decide

/-- C4 (amended): for every valid QuoteRequest, `POST /quote` returns
status 200 with `premium_amount >= 0` and a non-empty `quote_id` for every
successful (status below 400) parsable provider response whose `quote_id`
(or fallback `id`) is a non-empty string and whose premium fields, when
present, are non-negative. -/
theorem quote_success_guarantees (q : QuoteRequest) (f : ProviderFields)
    (now qid : String) (st : Nat)
    (hst : st < 400)
    (hqid : getFirst f.quote_id f.id = some qid) (hne : qid ≠ "")
    (hmp : ∀ x, f.monthly_premium = some x → 0 ≤ x)
    (hpa : ∀ x, f.premium_amount = some x → 0 ≤ x) :
    ∃ r, runQuote q (CallOutcome.response st (Body.obj f)) now =
        HttpResult.success r ∧
      (runQuote q (CallOutcome.response st (Body.obj f)) now).status = 200 ∧
      0 ≤ r.premium_amount ∧ r.quote_id ≠ "" := by
  have hprem : 0 ≤ Option.getD f.monthly_premium (Option.getD f.premium_amount 0) := by
    cases hm : f.monthly_premium with
    | some x => simpa using hmp x hm
    | none =>
        cases hp : f.premium_amount with
        | some y => simpa using hpa y hp
        | none => simp
  have hrun : runQuote q (CallOutcome.response st (Body.obj f)) now =
      HttpResult.success
        { quote_id := qid,
          premium_amount :=
            Option.getD f.monthly_premium (Option.getD f.premium_amount 0),
          coverage_details := Option.getD f.coverage [],
          valid_until := pyOr f.valid_until now,
          message := "Quote generated successfully" } := by
    unfold runQuote create_quote createQuoteCall
    rw [classifyCall_ok _ _ _ _ hst]
    simp only []
    rw [hqid]
    rfl
  exact ⟨_, hrun, by rw [hrun]; rfl, hprem, hne⟩

/-- Witness for the amended C4 at a concrete provider body. -/
theorem quote_success_guarantees_witness :
    ∃ r, runQuote sampleQuoteRequest
        (CallOutcome.response 200
          (Body.obj { quote_id := some "Q1", monthly_premium := some 5 }))
        "NOW" =
        HttpResult.success r ∧
      (runQuote sampleQuoteRequest
        (CallOutcome.response 200
          (Body.obj { quote_id := some "Q1", monthly_premium := some 5 }))
        "NOW").status = 200 ∧
      0 ≤ r.premium_amount ∧ r.quote_id ≠ "" :=
  quote_success_guarantees sampleQuoteRequest
    { quote_id := some "Q1", monthly_premium := some 5 } "NOW" "Q1" 200
    (by decide) rfl (by decide)
    (fun x hx => by cases hx; decide)
    (fun x hx => Option.noConfusion hx)

/-- Witness for C8: a provider response with neither premium field yields
premium 0 on the quote endpoint. -/
theorem premium_fallback_chain_witness :
    ({ quote_id := "Q1", premium_amount := 0, coverage_details := [],
       valid_until := "NOW",
       message := "Quote generated successfully" } :
         QuoteResponse).premium_amount = 0 :=
  ((premium_fallback_chain
    ⟨"Ann", "Lee", "ann@example.com", "555",
      ⟨"1 Main St", "Springfield", "IL", "62704"⟩,
      ⟨2020, "Make", "Model", none⟩⟩
    ⟨"q1", "pm1", none⟩
    { quote_id := some "Q1" } "NOW" ⟨2026, 10, 12⟩ 200 0 0
    (by decide)).1.2.2) rfl rfl
    { quote_id := "Q1", premium_amount := 0, coverage_details := [],
      valid_until := "NOW", message := "Quote generated successfully" }
    (by decide)

end Portal
